import Mathlib

/-!
Verification of the react-perf core against its specification.

The development shallowly embeds the pure computational core of the
repository:

* `PerformanceAnalyzer.calculateSummary` / `PerformanceAnalyzer.calculateScore`
  (scoring engine),
* `PerformanceSnapshotManager.createSnapshot` (aggregate metrics),
* `PerformanceSnapshotManager.calculateRegression` / `calculateImprovement` /
  `calculateUnchanged` (per-file classification),
* `PRAlertSystem.generateAlertReport` (alert decision engine).

Modelling conventions:

* JavaScript `number` values are modelled as `ℚ` (all operations appearing in
  the embedded code are exact decimal/rational operations, so `ℚ` agrees with
  IEEE doubles on every comparison the theorems below depend on), except in
  the scoring engine where every operand is an integer and `ℤ` is used;
  there `Math.round` of an already-integral value is the identity and is
  therefore omitted.
* `NaN` (which arises in `createSnapshot` as `0/0`) is modelled by `none` of
  an `Option ℚ`.
* File-system persistence, timestamps, random ids and console printing are
  outside the embedded core; a loaded baseline is passed in as an
  `Option PerformanceSnapshot` (`none` models "no stored baseline").
-/

/-- Severity of a `PerformanceIssue` (`"low" | "medium" | "high"`).  The other
fields of an issue (line, message, suggestion, type) never influence the
computations verified here, so an issue is represented by its severity. -/
inductive Severity where
  | low
  | medium
  | high
deriving DecidableEq, Repr

/-- The `summary` object computed by `PerformanceAnalyzer.calculateSummary`. -/
structure Summary where
  totalIssues : ℕ
  highSeverity : ℕ
  mediumSeverity : ℕ
  lowSeverity : ℕ
deriving DecidableEq, Repr

/-- `PerformanceAnalyzer.calculateSummary`: counts of the issue list by
severity, together with the total number of issues. -/
def calculateSummary (issues : List Severity) : Summary :=
  { totalIssues := issues.length
    lowSeverity := (issues.filter (fun i => i = Severity.low)).length
    highSeverity := (issues.filter (fun i => i = Severity.high)).length
    mediumSeverity := (issues.filter (fun i => i = Severity.medium)).length }

/-- The `score.breakdown` record of a `FileAnalysis`. -/
structure ScoreBreakdown where
  memoryLeaks : ℤ
  performance : ℤ
  codeQuality : ℤ
deriving DecidableEq, Repr

/-- The `score` record of a `FileAnalysis`. -/
structure Score where
  total : ℤ
  grade : String
  breakdown : ScoreBreakdown
deriving DecidableEq, Repr

/-- The file size bonus/penalty of `calculateScore`:
`totalLines < 100 ? 5 : totalLines > 500 ? -10 : 0`. -/
def sizeBonus (totalLines : ℕ) : ℤ :=
  if totalLines < 100 then 5 else if totalLines > 500 then -10 else 0

/-- The clean code bonus of `calculateScore`:
`summary.totalIssues === 0 ? 10 : 0`. -/
def cleanCodeBonus (totalIssues : ℕ) : ℤ :=
  if totalIssues = 0 then 10 else 0

/-- `PerformanceAnalyzer.calculateScore`.  All operands are integers, so the
arithmetic is carried out in `ℤ` and the source's `Math.round` calls (identity
on integers) are omitted.  The source initialises `grade = "F"` and then
reassigns through a chain of `else if`s; that mutation pattern is translated
into the equivalent `if … else … else "F"` chain. -/
def calculateScore (summary : Summary) (totalLines : ℕ) : Score :=
  let baseScore : ℤ := 100
  let highDeduction : ℤ := summary.highSeverity * 15
  let mediumDeduction : ℤ := summary.mediumSeverity * 8
  let lowDeduction : ℤ := summary.lowSeverity * 2
  let cleanBonus : ℤ := cleanCodeBonus summary.totalIssues
  let size : ℤ := sizeBonus totalLines
  let totalScore : ℤ :=
    max 0 (min 100
      (baseScore - highDeduction - mediumDeduction - lowDeduction + cleanBonus + size))
  let memoryLeaks : ℤ := max 0 (100 - summary.highSeverity * 20)
  let performance : ℤ := max 0 (100 - summary.mediumSeverity * 10)
  let codeQuality : ℤ := max 0 (100 - summary.lowSeverity * 5)
  let grade : String :=
    if totalScore ≥ 90 then "A+"
    else if totalScore ≥ 85 then "A"
    else if totalScore ≥ 80 then "A-"
    else if totalScore ≥ 75 then "B+"
    else if totalScore ≥ 70 then "B"
    else if totalScore ≥ 65 then "B-"
    else if totalScore ≥ 60 then "C+"
    else if totalScore ≥ 55 then "C"
    else if totalScore ≥ 50 then "C-"
    else if totalScore ≥ 45 then "D+"
    else if totalScore ≥ 40 then "D"
    else if totalScore ≥ 35 then "D-"
    else "F"
  { total := totalScore
    grade := grade
    breakdown :=
      { memoryLeaks := memoryLeaks
        performance := performance
        codeQuality := codeQuality } }

/-- The size bonus only takes the three values +5, 0 and -10. -/
lemma sizeBonus_cases (totalLines : ℕ) :
    sizeBonus totalLines = 5 ∨ sizeBonus totalLines = 0 ∨
      sizeBonus totalLines = -10 := by
  unfold sizeBonus
  split_ifs <;> simp

/-- Spec-side grade scale: the step function of the integer total with the
eleven cut points 90/85/80/75/70/65/60/55/50/45/40/35 mapped to
A+, A, A-, B+, B, B-, C+, C, C-, D+, D, D-, and F below 35. -/
def gradeFromTotalSpec (total : ℤ) : String :=
  if total ≥ 90 then "A+"
  else if total ≥ 85 then "A"
  else if total ≥ 80 then "A-"
  else if total ≥ 75 then "B+"
  else if total ≥ 70 then "B"
  else if total ≥ 65 then "B-"
  else if total ≥ 60 then "C+"
  else if total ≥ 55 then "C"
  else if total ≥ 50 then "C-"
  else if total ≥ 45 then "D+"
  else if total ≥ 40 then "D"
  else if total ≥ 35 then "D-"
  else "F"

/-- The grade computed inside `calculateScore` is definitionally the spec-side
step function applied to the computed total. -/
lemma calculateScore_grade_eq (summary : Summary) (totalLines : ℕ) :
    (calculateScore summary totalLines).grade =
      gradeFromTotalSpec ((calculateScore summary totalLines).total) := rfl

/-- C1: for every issue list and every `totalLines`, the score computation
returns `total = clamp(100 - (15*high + 8*medium + 2*low) + cleanBonus +
sizeBonus, 0, 100)` (already an integer, so rounding is the identity), where
`cleanBonus = 10` iff the issue list is empty, and the breakdown is
`memoryLeaks = max(0, 100 - high*20)`, `performance = max(0, 100 - medium*10)`,
`codeQuality = max(0, 100 - low*5)`. -/
theorem calculateScore_total_and_breakdown :
    ∀ (issues : List Severity) (totalLines : ℕ),
      (calculateScore (calculateSummary issues) totalLines).total =
        max 0 (min 100
          (100 - 15 * ((calculateSummary issues).highSeverity : ℤ)
             - 8 * ((calculateSummary issues).mediumSeverity : ℤ)
             - 2 * ((calculateSummary issues).lowSeverity : ℤ)
             + (if issues = [] then 10 else 0) + sizeBonus totalLines)) ∧
      (calculateScore (calculateSummary issues) totalLines).breakdown.memoryLeaks =
        max 0 (100 - ((calculateSummary issues).highSeverity : ℤ) * 20) ∧
      (calculateScore (calculateSummary issues) totalLines).breakdown.performance =
        max 0 (100 - ((calculateSummary issues).mediumSeverity : ℤ) * 10) ∧
      (calculateScore (calculateSummary issues) totalLines).breakdown.codeQuality =
        max 0 (100 - ((calculateSummary issues).lowSeverity : ℤ) * 5) := by
  intro issues totalLines
  have hempty : ((calculateSummary issues).totalIssues = 0) ↔ issues = [] := by
    simp [calculateSummary, List.length_eq_zero]
  refine ⟨?_, rfl, rfl, rfl⟩
  simp only [calculateScore, cleanCodeBonus]
  by_cases h : issues = []
  · simp [hempty.mpr, h, calculateSummary]
  · rw [if_neg (fun hc => h (hempty.mp hc)), if_neg h]
    ring_nf

/-- Any issue list whose three severity counts are all zero is empty, because
every issue carries exactly one of the three severities. -/
lemma counts_zero_imp_nil (issues : List Severity)
    (hh : (calculateSummary issues).highSeverity = 0)
    (hm : (calculateSummary issues).mediumSeverity = 0)
    (hl : (calculateSummary issues).lowSeverity = 0) : issues = [] := by
  cases issues with
  | nil => rfl
  | cons s rest =>
    cases s
    · simp [calculateSummary] at hl
    · simp [calculateSummary] at hm
    · simp [calculateSummary] at hh

/-- C2 counterexample: at `issues = []`, `totalLines = 501` the code returns
`total = 100`, not `min 100 (100 + sizeBonus 501) = 90` as the claim's formula
`100 + sizeBonus` clamped to 100 predicts: the claim omits the +10 clean-code
bonus that offsets the -10 size penalty. -/
theorem c2_counterexample :
    ¬ ((calculateScore (calculateSummary ([] : List Severity)) 501).total =
        min 100 (100 + sizeBonus 501)) := by
  decide

/-- C2 (amended): for every issue list whose severity counts are all zero and
every `totalLines`, `score.total = clamp(100 + cleanBonus + sizeBonus, 0, 100)`,
which equals 100 for every `totalLines` (the +10 clean-code bonus offsets even
the -10 large-file penalty), the grade is `"A+"`, and the clean-code bonus of
10 is applied. -/
theorem c2_clean_always_100 :
    ∀ (issues : List Severity) (totalLines : ℕ),
      (calculateSummary issues).highSeverity = 0 →
      (calculateSummary issues).mediumSeverity = 0 →
      (calculateSummary issues).lowSeverity = 0 →
      (calculateScore (calculateSummary issues) totalLines).total =
        max 0 (min 100
          (100 + cleanCodeBonus (calculateSummary issues).totalIssues +
            sizeBonus totalLines)) ∧
      (calculateScore (calculateSummary issues) totalLines).total = 100 ∧
      (calculateScore (calculateSummary issues) totalLines).grade = "A+" ∧
      cleanCodeBonus (calculateSummary issues).totalIssues = 10 := by
  intro issues totalLines hh hm hl
  have hnil := counts_zero_imp_nil issues hh hm hl
  subst hnil
  have hsum : calculateSummary ([] : List Severity) =
      (⟨0, 0, 0, 0⟩ : Summary) := rfl
  rw [hsum]
  have htot :
      (calculateScore (⟨0, 0, 0, 0⟩ : Summary) totalLines).total =
        max 0 (min 100 (110 + sizeBonus totalLines)) := by
    simp only [calculateScore, cleanCodeBonus]
    norm_num
  have h100 :
      (calculateScore (⟨0, 0, 0, 0⟩ : Summary) totalLines).total = 100 := by
    rw [htot]
    rcases sizeBonus_cases totalLines with h | h | h <;> rw [h] <;> decide
  refine ⟨?_, h100, ?_, rfl⟩
  · rw [htot]
    norm_num [cleanCodeBonus]
  · rw [calculateScore_grade_eq, h100]
    decide

/-- C2 witness: the amended claim at the concrete input `issues = []`,
`totalLines = 501`. -/
theorem c2_clean_always_100_witness :
    (calculateScore (calculateSummary ([] : List Severity)) 501).total = 100 ∧
    (calculateScore (calculateSummary ([] : List Severity)) 501).grade = "A+" :=
  ⟨(c2_clean_always_100 [] 501 rfl rfl rfl).2.1,
   (c2_clean_always_100 [] 501 rfl rfl rfl).2.2.1⟩

/-- The pre-clamp score of `calculateScore` for severity counts `(h, m, l)`
(`totalIssues = h + m + l`, as produced by `calculateSummary`). -/
def unclampedScore (h m l totalLines : ℕ) : ℤ :=
  100 - (h : ℤ) * 15 - (m : ℤ) * 8 - (l : ℤ) * 2 +
    cleanCodeBonus (h + m + l) + sizeBonus totalLines

/-- `score.total` as a function of the severity counts `(h, m, l)` (with the
coupled `totalIssues = h + m + l`) and `totalLines`. -/
def scoreTotalOf (h m l totalLines : ℕ) : ℤ :=
  (calculateScore { totalIssues := h + m + l, highSeverity := h,
                    mediumSeverity := m, lowSeverity := l } totalLines).total

lemma scoreTotalOf_eq (h m l totalLines : ℕ) :
    scoreTotalOf h m l totalLines =
      max 0 (min 100 (unclampedScore h m l totalLines)) := by
  simp only [scoreTotalOf, calculateScore, unclampedScore]

/-- C6 counterexample: at `(high, medium, low) = (0, 0, 0)` with
`totalLines = 50` the total is `100 > 0` (the clamp floor is not reached), yet
increasing `low` to 1 does not strictly decrease the total: the upper clamp at
100 absorbs the deduction. -/
theorem c6_counterexample :
    (0 : ℤ) < scoreTotalOf 0 0 0 50 ∧
    ¬ (scoreTotalOf 0 0 1 50 < scoreTotalOf 0 0 0 50) := by
  decide

/-- C6 (amended): `score.total` is monotonically non-increasing as any one of
the severity counts increases, the other two held fixed; the decrease is
strict until the clamp floor of 0 is reached provided the pre-clamp score is
at most 100 (at the upper clamp, the ceiling of 100 can absorb the
deduction). -/
theorem c6_score_monotone :
    ∀ (h m l totalLines : ℕ),
      (scoreTotalOf (h + 1) m l totalLines ≤ scoreTotalOf h m l totalLines ∧
       scoreTotalOf h (m + 1) l totalLines ≤ scoreTotalOf h m l totalLines ∧
       scoreTotalOf h m (l + 1) totalLines ≤ scoreTotalOf h m l totalLines) ∧
      (unclampedScore h m l totalLines ≤ 100 →
       0 < scoreTotalOf h m l totalLines →
        scoreTotalOf (h + 1) m l totalLines < scoreTotalOf h m l totalLines ∧
        scoreTotalOf h (m + 1) l totalLines < scoreTotalOf h m l totalLines ∧
        scoreTotalOf h m (l + 1) totalLines < scoreTotalOf h m l totalLines) := by
  intro h m l totalLines
  simp only [scoreTotalOf_eq, unclampedScore, cleanCodeBonus, sizeBonus]
  split_ifs <;> omega

/-- C6 witness: the strict-decrease part of the amended claim at the concrete
counts `(1, 1, 1)` with `totalLines = 200`. -/
theorem c6_score_monotone_witness :
    scoreTotalOf 2 1 1 200 < scoreTotalOf 1 1 1 200 ∧
    scoreTotalOf 1 2 1 200 < scoreTotalOf 1 1 1 200 ∧
    scoreTotalOf 1 1 2 200 < scoreTotalOf 1 1 1 200 :=
  (c6_score_monotone 1 1 1 200).2 (by decide) (by decide)

/-- C7: the grade is a pure step function of the integer total with the
eleven cut points 90/85/80/75/70/65/60/55/50/45/40/35; in particular
`total = 90` yields `"A+"`, `total = 89` yields `"A"`, `total = 34` yields
`"F"`, each realised by a concrete issue list. -/
theorem c7_grade_is_step_function :
    (∀ (summary : Summary) (totalLines : ℕ),
      (calculateScore summary totalLines).grade =
        gradeFromTotalSpec ((calculateScore summary totalLines).total)) ∧
    gradeFromTotalSpec 90 = "A+" ∧
    gradeFromTotalSpec 89 = "A" ∧
    gradeFromTotalSpec 34 = "F" ∧
    (calculateScore (calculateSummary (List.replicate 5 Severity.low)) 200).total
      = 90 ∧
    (calculateScore (calculateSummary (List.replicate 5 Severity.low)) 200).grade
      = "A+" ∧
    (calculateScore (calculateSummary (List.replicate 2 Severity.medium)) 50).total
      = 89 ∧
    (calculateScore (calculateSummary (List.replicate 2 Severity.medium)) 50).grade
      = "A" ∧
    (calculateScore (calculateSummary
        (List.replicate 2 Severity.high ++ List.replicate 4 Severity.medium ++
          List.replicate 2 Severity.low)) 200).total = 34 ∧
    (calculateScore (calculateSummary
        (List.replicate 2 Severity.high ++ List.replicate 4 Severity.medium ++
          List.replicate 2 Severity.low)) 200).grade = "F" := by
  exact ⟨fun summary totalLines => calculateScore_grade_eq summary totalLines,
    by decide⟩

/-- A full `FileAnalysis` as consumed by `createSnapshot` (the `issues` array
is not read by `createSnapshot`, only `summary` and `score`). -/
structure FileAnalysis where
  filePath : String
  summary : Summary
  score : Score
deriving DecidableEq, Repr

/-- JavaScript division by a length, as used for the aggregate means of
`createSnapshot`: each numerator is a `reduce` sum over the same list, so the
divisor is zero exactly when the numerator is zero and the JS result is
`0/0 = NaN`, modelled by `none`. -/
def divJS (total : ℚ) (count : ℕ) : Option ℚ :=
  if count = 0 then none else some (total / count)

/-- The `metrics` record built by
`PerformanceSnapshotManager.createSnapshot`; the four averages are JS numbers
that may be `NaN` (modelled `Option ℚ`). -/
structure CreatedMetrics where
  totalFiles : ℕ
  totalIssues : ℕ
  highSeverityIssues : ℕ
  mediumSeverityIssues : ℕ
  lowSeverityIssues : ℕ
  averageScore : Option ℚ
  performanceScore : Option ℚ
  memoryScore : Option ℚ
  codeQualityScore : Option ℚ
deriving DecidableEq, Repr

/-- The metrics computation of `PerformanceSnapshotManager.createSnapshot`
(the source's `reduce((sum, a) => sum + …, 0)` sums are translated as
`map`/`sum`; id generation, timestamp, environment capture and persistence are
outside the embedded core). -/
def createSnapshotMetrics (analyses : List FileAnalysis) : CreatedMetrics :=
  let totalFiles := analyses.length
  { totalFiles := totalFiles
    totalIssues := (analyses.map (fun analysis => analysis.summary.totalIssues)).sum
    highSeverityIssues :=
      (analyses.map (fun analysis => analysis.summary.highSeverity)).sum
    mediumSeverityIssues :=
      (analyses.map (fun analysis => analysis.summary.mediumSeverity)).sum
    lowSeverityIssues :=
      (analyses.map (fun analysis => analysis.summary.lowSeverity)).sum
    averageScore :=
      divJS ((analyses.map (fun analysis => (analysis.score.total : ℚ))).sum) totalFiles
    performanceScore :=
      divJS ((analyses.map (fun analysis =>
        (analysis.score.breakdown.performance : ℚ))).sum) totalFiles
    memoryScore :=
      divJS ((analyses.map (fun analysis =>
        (analysis.score.breakdown.memoryLeaks : ℚ))).sum) totalFiles
    codeQualityScore :=
      divJS ((analyses.map (fun analysis =>
        (analysis.score.breakdown.codeQuality : ℚ))).sum) totalFiles }

/-- A `FileAnalysisSummary` entry of a stored snapshot.  Snapshots are loaded
back from JSON, so every numeric field is an arbitrary JS number (`ℚ`). -/
structure FileAnalysisSummary where
  filePath : String
  totalIssues : ℚ
  highSeverity : ℚ
  mediumSeverity : ℚ
  lowSeverity : ℚ
  score : ℚ
  grade : String
deriving DecidableEq, Repr

/-- The `metrics` record of a stored snapshot (arbitrary JS numbers). -/
structure Metrics where
  totalFiles : ℚ
  totalIssues : ℚ
  highSeverityIssues : ℚ
  mediumSeverityIssues : ℚ
  lowSeverityIssues : ℚ
  averageScore : ℚ
  performanceScore : ℚ
  memoryScore : ℚ
  codeQualityScore : ℚ
deriving DecidableEq, Repr

/-- A stored `PerformanceSnapshot` as consumed by the comparison functions
(`id`, `timestamp` and `environment` are generated metadata never read by the
computations verified here and are omitted). -/
structure PerformanceSnapshot where
  branch : String
  commit : String
  metrics : Metrics
  fileAnalysis : List FileAnalysisSummary
deriving DecidableEq, Repr

/-- The `regression` component of a `SnapshotComparison`. -/
structure RegressionInfo where
  totalIssues : ℚ
  highSeverityIssues : ℚ
  averageScore : ℚ
  filesWithRegressions : List String
deriving DecidableEq, Repr

/-- The `improvement` component of a `SnapshotComparison`. -/
structure ImprovementInfo where
  totalIssues : ℚ
  highSeverityIssues : ℚ
  averageScore : ℚ
  filesWithImprovements : List String
deriving DecidableEq, Repr

/-- The `unchanged` component of a `SnapshotComparison`. -/
structure UnchangedInfo where
  totalFiles : ℕ
  files : List String
deriving DecidableEq, Repr

/-- `PerformanceSnapshotManager.calculateRegression`.  The source's
`forEach`/`push` loop over `baseline.fileAnalysis` is translated as
`filterMap`. -/
def calculateRegression (baseline current : PerformanceSnapshot) :
    RegressionInfo :=
  { totalIssues :=
      max 0 (current.metrics.totalIssues - baseline.metrics.totalIssues)
    highSeverityIssues :=
      max 0 (current.metrics.highSeverityIssues -
        baseline.metrics.highSeverityIssues)
    averageScore :=
      max 0 (baseline.metrics.averageScore - current.metrics.averageScore)
    filesWithRegressions := baseline.fileAnalysis.filterMap (fun baselineFile =>
      match current.fileAnalysis.find?
          (fun f => f.filePath == baselineFile.filePath) with
      | some currentFile =>
        if currentFile.score < baselineFile.score then some baselineFile.filePath
        else none
      | none => none) }

/-- `PerformanceSnapshotManager.calculateImprovement`. -/
def calculateImprovement (baseline current : PerformanceSnapshot) :
    ImprovementInfo :=
  { totalIssues :=
      max 0 (baseline.metrics.totalIssues - current.metrics.totalIssues)
    highSeverityIssues :=
      max 0 (baseline.metrics.highSeverityIssues -
        current.metrics.highSeverityIssues)
    averageScore :=
      max 0 (current.metrics.averageScore - baseline.metrics.averageScore)
    filesWithImprovements := baseline.fileAnalysis.filterMap (fun baselineFile =>
      match current.fileAnalysis.find?
          (fun f => f.filePath == baselineFile.filePath) with
      | some currentFile =>
        if currentFile.score > baselineFile.score then some baselineFile.filePath
        else none
      | none => none) }

/-- The list of unchanged files of
`PerformanceSnapshotManager.calculateUnchanged`. -/
def unchangedFiles (baseline current : PerformanceSnapshot) : List String :=
  baseline.fileAnalysis.filterMap (fun baselineFile =>
    match current.fileAnalysis.find?
        (fun f => f.filePath == baselineFile.filePath) with
    | some currentFile =>
      if |currentFile.score - baselineFile.score| < 1 / 100 then
        some baselineFile.filePath
      else none
    | none => none)

/-- `PerformanceSnapshotManager.calculateUnchanged`. -/
def calculateUnchanged (baseline current : PerformanceSnapshot) :
    UnchangedInfo :=
  { totalFiles := (unchangedFiles baseline current).length
    files := unchangedFiles baseline current }

/-- A `SnapshotComparison`. -/
structure SnapshotComparison where
  baseline : PerformanceSnapshot
  current : PerformanceSnapshot
  regression : RegressionInfo
  improvement : ImprovementInfo
  unchanged : UnchangedInfo
deriving DecidableEq, Repr

/-- `PerformanceSnapshotManager.compareWithBaseline`: the stored baseline for
the requested branch is passed in as an `Option` (`none` models the
storage-not-found sentinel of `loadBaseline`). -/
def compareWithBaseline (baseline : Option PerformanceSnapshot)
    (currentSnapshot : PerformanceSnapshot) : Option SnapshotComparison :=
  match baseline with
  | none => none
  | some b =>
    some { baseline := b
           current := currentSnapshot
           regression := calculateRegression b currentSnapshot
           improvement := calculateImprovement b currentSnapshot
           unchanged := calculateUnchanged b currentSnapshot }

/-- `AlertThresholds` (constructor defaults: 5 / 2 / 10 / 2). -/
structure AlertThresholds where
  maxScoreRegression : ℚ
  maxHighSeverityIncrease : ℚ
  maxTotalIssuesIncrease : ℚ
  minScoreImprovement : ℚ
deriving DecidableEq, Repr

/-- The messages pushed onto the critical-issue / warning / recommendation
lists of `PRAlertSystem.generateAlertReport`.  Each source template string is
represented by a constructor carrying the interpolated values; the exact
`toFixed` text formatting is irrelevant to every property verified here. -/
inductive AlertMsg where
  | scoreRegressed (points threshold : ℚ)
  | highSeverityIncreased (count threshold : ℚ)
  | totalIssuesIncreased (count threshold : ℚ)
  | greatImprovement (points : ℚ)
  | slightRegression (points : ℚ)
  | filesRegressed (count : ℕ)
  | reviewFiles (files : List String)
  | filesImproved (count : ℕ)
  | noBaselineFound
  | createBaselineFirst
deriving DecidableEq, Repr

/-- The `summary.status` of an `AlertReport`. -/
inductive AlertStatus where
  | pass
  | fail
  | warning
deriving DecidableEq, Repr

/-- The `summary` of an `AlertReport` (`message` is a fixed pure function of
`status` and is omitted). -/
structure AlertSummary where
  status : AlertStatus
  score : ℚ
deriving DecidableEq, Repr

/-- An `AlertReport` (the `details` sub-object is flattened into the three
component fields). -/
structure AlertReport where
  hasRegressions : Bool
  hasImprovements : Bool
  criticalIssues : List AlertMsg
  warnings : List AlertMsg
  recommendations : List AlertMsg
  summary : AlertSummary
  regression : RegressionInfo
  improvement : ImprovementInfo
  unchanged : UnchangedInfo
deriving DecidableEq, Repr

/-- `PRAlertSystem.generateAlertReport`.  The stored baseline for the
requested branch is passed in as an `Option` (`none` models "no baseline
found"); the source's sequential `push` calls translate to list
concatenations in the same order. -/
def generateAlertReport (baseline : Option PerformanceSnapshot)
    (currentSnapshot : PerformanceSnapshot)
    (thresholds : AlertThresholds) : AlertReport :=
  match compareWithBaseline baseline currentSnapshot with
  | none =>
    { hasRegressions := false
      hasImprovements := false
      criticalIssues := [AlertMsg.noBaselineFound]
      warnings := []
      recommendations := [AlertMsg.createBaselineFirst]
      summary := { status := AlertStatus.warning, score := 0 }
      regression :=
        { totalIssues := 0, highSeverityIssues := 0, averageScore := 0,
          filesWithRegressions := [] }
      improvement :=
        { totalIssues := 0, highSeverityIssues := 0, averageScore := 0,
          filesWithImprovements := [] }
      unchanged := { totalFiles := 0, files := [] } }
  | some comparison =>
    let criticalIssues : List AlertMsg :=
      (if comparison.regression.averageScore > thresholds.maxScoreRegression
       then [AlertMsg.scoreRegressed comparison.regression.averageScore
               thresholds.maxScoreRegression]
       else []) ++
      (if comparison.regression.highSeverityIssues >
          thresholds.maxHighSeverityIncrease
       then [AlertMsg.highSeverityIncreased
               comparison.regression.highSeverityIssues
               thresholds.maxHighSeverityIncrease]
       else []) ++
      (if comparison.regression.totalIssues > thresholds.maxTotalIssuesIncrease
       then [AlertMsg.totalIssuesIncreased comparison.regression.totalIssues
               thresholds.maxTotalIssuesIncrease]
       else [])
    let warnings : List AlertMsg :=
      (if comparison.regression.averageScore > 0 ∧
          comparison.regression.averageScore ≤ thresholds.maxScoreRegression
       then [AlertMsg.slightRegression comparison.regression.averageScore]
       else []) ++
      (if comparison.regression.filesWithRegressions.length > 0
       then [AlertMsg.filesRegressed
               comparison.regression.filesWithRegressions.length]
       else [])
    let recommendations : List AlertMsg :=
      (if comparison.improvement.averageScore > thresholds.minScoreImprovement
       then [AlertMsg.greatImprovement comparison.improvement.averageScore]
       else []) ++
      (if comparison.regression.filesWithRegressions.length > 0
       then [AlertMsg.reviewFiles
               (comparison.regression.filesWithRegressions.take 5)]
       else []) ++
      (if comparison.improvement.filesWithImprovements.length > 0
       then [AlertMsg.filesImproved
               comparison.improvement.filesWithImprovements.length]
       else [])
    let hasRegressions : Bool := decide (criticalIssues.length > 0)
    let hasImprovements : Bool :=
      decide (comparison.improvement.averageScore >
        thresholds.minScoreImprovement)
    let status : AlertStatus :=
      if criticalIssues.length > 0 then AlertStatus.fail
      else if warnings.length > 0 then AlertStatus.warning
      else AlertStatus.pass
    let score : ℚ :=
      if criticalIssues.length > 0 then
        max 0 (100 - (criticalIssues.length : ℚ) * 20)
      else if warnings.length > 0 then
        max 50 (100 - (warnings.length : ℚ) * 10)
      else 100
    { hasRegressions := hasRegressions
      hasImprovements := hasImprovements
      criticalIssues := criticalIssues
      warnings := warnings
      recommendations := recommendations
      summary := { status := status, score := score }
      regression := comparison.regression
      improvement := comparison.improvement
      unchanged := comparison.unchanged }

/-- C5: `createSnapshot` on an empty list of file analyses divides by zero:
all four average metrics are `0/0 = NaN` (modelled `none`), which is stored
in the snapshot — no sentinel is substituted, contradicting the documented
requirement that `NaN` never propagate. -/
theorem createSnapshotMetrics_empty_is_nan :
    (createSnapshotMetrics []).averageScore = none ∧
    (createSnapshotMetrics []).performanceScore = none ∧
    (createSnapshotMetrics []).memoryScore = none ∧
    (createSnapshotMetrics []).codeQualityScore = none :=
  ⟨rfl, rfl, rfl, rfl⟩

/-- C9: with no stored baseline, `generateAlertReport` returns the fixed
report: status `warning`, score 0, exactly the one critical issue "No
baseline found for comparison" and exactly the one recommendation "Create a
baseline snapshot first". -/
theorem generateAlertReport_no_baseline :
    ∀ (currentSnapshot : PerformanceSnapshot) (thresholds : AlertThresholds),
      (generateAlertReport none currentSnapshot thresholds).summary.status =
        AlertStatus.warning ∧
      (generateAlertReport none currentSnapshot thresholds).summary.score = 0 ∧
      (generateAlertReport none currentSnapshot thresholds).criticalIssues =
        [AlertMsg.noBaselineFound] ∧
      (generateAlertReport none currentSnapshot thresholds).recommendations =
        [AlertMsg.createBaselineFirst] := by
  intro currentSnapshot thresholds
  exact ⟨rfl, rfl, rfl, rfl⟩

/-- The status chain of `generateAlertReport` phrased through list
non-emptiness instead of positive length. -/
lemma verdict_shape (C W : List AlertMsg) :
    (if C.length > 0 then AlertStatus.fail
     else if W.length > 0 then AlertStatus.warning
     else AlertStatus.pass) =
    (if C ≠ [] then AlertStatus.fail
     else if W ≠ [] then AlertStatus.warning
     else AlertStatus.pass) := by
  cases C <;> cases W <;> simp

/-- The score chain of `generateAlertReport` phrased through list
non-emptiness instead of positive length. -/
lemma score_shape (C W : List AlertMsg) :
    (if C.length > 0 then max 0 (100 - (C.length : ℚ) * 20)
     else if W.length > 0 then max 50 (100 - (W.length : ℚ) * 10)
     else (100 : ℚ)) =
    (if C ≠ [] then max 0 (100 - 20 * (C.length : ℚ))
     else if W ≠ [] then max 50 (100 - 10 * (W.length : ℚ))
     else (100 : ℚ)) := by
  cases C <;> cases W <;> simp [mul_comm]

/-- C4: for every report produced from an existing baseline, the status is
`fail` iff `criticalIssues` is non-empty, else `warning` iff `warnings` is
non-empty, else `pass`; the score is `max(0, 100 - 20*len(criticalIssues))`
when failing, `max(50, 100 - 10*len(warnings))` when warning, and 100 when
passing. -/
theorem generateAlertReport_verdict :
    ∀ (baseline currentSnapshot : PerformanceSnapshot)
      (thresholds : AlertThresholds),
      (generateAlertReport (some baseline) currentSnapshot
          thresholds).summary.status =
        (if (generateAlertReport (some baseline) currentSnapshot
              thresholds).criticalIssues ≠ [] then AlertStatus.fail
         else if (generateAlertReport (some baseline) currentSnapshot
              thresholds).warnings ≠ [] then AlertStatus.warning
         else AlertStatus.pass) ∧
      (generateAlertReport (some baseline) currentSnapshot
          thresholds).summary.score =
        (if (generateAlertReport (some baseline) currentSnapshot
              thresholds).criticalIssues ≠ [] then
           max 0 (100 - 20 * ((generateAlertReport (some baseline)
             currentSnapshot thresholds).criticalIssues.length : ℚ))
         else if (generateAlertReport (some baseline) currentSnapshot
              thresholds).warnings ≠ [] then
           max 50 (100 - 10 * ((generateAlertReport (some baseline)
             currentSnapshot thresholds).warnings.length : ℚ))
         else (100 : ℚ)) := by
  intro baseline currentSnapshot thresholds
  simp only [generateAlertReport, compareWithBaseline]
  exact ⟨verdict_shape _ _, score_shape _ _⟩


/-- Membership in the regression bucket, characterised. -/
lemma mem_filesWithRegressions (baseline current : PerformanceSnapshot)
    (p : String) :
    p ∈ (calculateRegression baseline current).filesWithRegressions ↔
    ∃ bf ∈ baseline.fileAnalysis, ∃ cf,
      current.fileAnalysis.find? (fun f => f.filePath == bf.filePath) =
        some cf ∧ cf.score < bf.score ∧ bf.filePath = p := by
  simp only [calculateRegression, List.mem_filterMap]
  constructor
  · rintro ⟨bf, hbf, hg⟩
    cases hfind : current.fileAnalysis.find?
        (fun f => f.filePath == bf.filePath) with
    | none => rw [hfind] at hg; simp at hg
    | some cf =>
      rw [hfind] at hg
      dsimp only at hg
      by_cases hlt : cf.score < bf.score
      · rw [if_pos hlt] at hg
        exact ⟨bf, hbf, cf, hfind, hlt, Option.some.inj hg⟩
      · rw [if_neg hlt] at hg
        simp at hg
  · rintro ⟨bf, hbf, cf, hfind, hlt, rfl⟩
    refine ⟨bf, hbf, ?_⟩
    rw [hfind]
    dsimp only
    rw [if_pos hlt]

/-- Membership in the improvement bucket, characterised. -/
lemma mem_filesWithImprovements (baseline current : PerformanceSnapshot)
    (p : String) :
    p ∈ (calculateImprovement baseline current).filesWithImprovements ↔
    ∃ bf ∈ baseline.fileAnalysis, ∃ cf,
      current.fileAnalysis.find? (fun f => f.filePath == bf.filePath) =
        some cf ∧ cf.score > bf.score ∧ bf.filePath = p := by
  simp only [calculateImprovement, List.mem_filterMap]
  constructor
  · rintro ⟨bf, hbf, hg⟩
    cases hfind : current.fileAnalysis.find?
        (fun f => f.filePath == bf.filePath) with
    | none => rw [hfind] at hg; simp at hg
    | some cf =>
      rw [hfind] at hg
      dsimp only at hg
      by_cases hgt : cf.score > bf.score
      · rw [if_pos hgt] at hg
        exact ⟨bf, hbf, cf, hfind, hgt, Option.some.inj hg⟩
      · rw [if_neg hgt] at hg
        simp at hg
  · rintro ⟨bf, hbf, cf, hfind, hgt, rfl⟩
    refine ⟨bf, hbf, ?_⟩
    rw [hfind]
    dsimp only
    rw [if_pos hgt]

/-- Membership in the unchanged bucket, characterised. -/
lemma mem_unchanged_files (baseline current : PerformanceSnapshot)
    (p : String) :
    p ∈ (calculateUnchanged baseline current).files ↔
    ∃ bf ∈ baseline.fileAnalysis, ∃ cf,
      current.fileAnalysis.find? (fun f => f.filePath == bf.filePath) =
        some cf ∧ |cf.score - bf.score| < 1 / 100 ∧ bf.filePath = p := by
  simp only [calculateUnchanged, unchangedFiles, List.mem_filterMap]
  constructor
  · rintro ⟨bf, hbf, hg⟩
    cases hfind : current.fileAnalysis.find?
        (fun f => f.filePath == bf.filePath) with
    | none => rw [hfind] at hg; simp at hg
    | some cf =>
      rw [hfind] at hg
      dsimp only at hg
      by_cases habs : |cf.score - bf.score| < 1 / 100
      · rw [if_pos habs] at hg
        exact ⟨bf, hbf, cf, hfind, habs, Option.some.inj hg⟩
      · rw [if_neg habs] at hg
        simp at hg
  · rintro ⟨bf, hbf, cf, hfind, habs, rfl⟩
    refine ⟨bf, hbf, ?_⟩
    rw [hfind]
    dsimp only
    rw [if_pos habs]

/-- A file entry fixture: only `filePath` and `score` matter to the
comparison functions. -/
def mkFileSummary (filePath : String) (score : ℚ) : FileAnalysisSummary :=
  { filePath := filePath, totalIssues := 0, highSeverity := 0,
    mediumSeverity := 0, lowSeverity := 0, score := score, grade := "A+" }

/-- A snapshot fixture around a file list. -/
def mkSnapshot (files : List FileAnalysisSummary) : PerformanceSnapshot :=
  { branch := "main", commit := "0000000",
    metrics := ⟨0, 0, 0, 0, 0, 0, 0, 0, 0⟩, fileAnalysis := files }

/-- C3: for every file present in both snapshots (looked up by path), a lower
current score puts it in `filesWithRegressions`, a higher current score in
`filesWithImprovements`, and an absolute difference below 0.01 in
`unchanged.files`; at the boundary, a difference of exactly 0.009 is
classified unchanged, and of exactly 0.01 as regression or improvement
according to the sign (and not unchanged). -/
theorem snapshot_per_file_classification :
    (∀ (baseline current : PerformanceSnapshot)
       (baselineFile currentFile : FileAnalysisSummary),
      baselineFile ∈ baseline.fileAnalysis →
      current.fileAnalysis.find?
          (fun f => f.filePath == baselineFile.filePath) = some currentFile →
      (currentFile.score < baselineFile.score →
        baselineFile.filePath ∈
          (calculateRegression baseline current).filesWithRegressions) ∧
      (currentFile.score > baselineFile.score →
        baselineFile.filePath ∈
          (calculateImprovement baseline current).filesWithImprovements) ∧
      (|currentFile.score - baselineFile.score| < 1 / 100 →
        baselineFile.filePath ∈
          (calculateUnchanged baseline current).files)) ∧
    "a.ts" ∈ (calculateUnchanged
        (mkSnapshot [mkFileSummary "a.ts" (50 + 9 / 1000)])
        (mkSnapshot [mkFileSummary "a.ts" 50])).files ∧
    "b.ts" ∈ (calculateRegression
        (mkSnapshot [mkFileSummary "b.ts" (50 + 1 / 100)])
        (mkSnapshot [mkFileSummary "b.ts" 50])).filesWithRegressions ∧
    "b.ts" ∉ (calculateUnchanged
        (mkSnapshot [mkFileSummary "b.ts" (50 + 1 / 100)])
        (mkSnapshot [mkFileSummary "b.ts" 50])).files ∧
    "c.ts" ∈ (calculateImprovement
        (mkSnapshot [mkFileSummary "c.ts" 50])
        (mkSnapshot [mkFileSummary "c.ts" (50 + 1 / 100)])).filesWithImprovements ∧
    "c.ts" ∉ (calculateUnchanged
        (mkSnapshot [mkFileSummary "c.ts" 50])
        (mkSnapshot [mkFileSummary "c.ts" (50 + 1 / 100)])).files := by
  refine ⟨?_, ?_, ?_, ?_, ?_, ?_⟩
  · intro baseline current baselineFile currentFile hmem hfind
    refine ⟨fun hlt => ?_, fun hgt => ?_, fun habs => ?_⟩
    · exact (mem_filesWithRegressions baseline current _).mpr
        ⟨baselineFile, hmem, currentFile, hfind, hlt, rfl⟩
    · exact (mem_filesWithImprovements baseline current _).mpr
        ⟨baselineFile, hmem, currentFile, hfind, hgt, rfl⟩
    · exact (mem_unchanged_files baseline current _).mpr
        ⟨baselineFile, hmem, currentFile, hfind, habs, rfl⟩
  · refine (mem_unchanged_files _ _ _).mpr
      ⟨mkFileSummary "a.ts" (50 + 9 / 1000), by simp [mkSnapshot],
       mkFileSummary "a.ts" 50, ?_, ?_, rfl⟩
    · simp [mkSnapshot, mkFileSummary, List.find?]
    · simp only [mkFileSummary]
      rw [abs_lt]
      constructor <;> norm_num
  · refine (mem_filesWithRegressions _ _ _).mpr
      ⟨mkFileSummary "b.ts" (50 + 1 / 100), by simp [mkSnapshot],
       mkFileSummary "b.ts" 50, ?_, ?_, rfl⟩
    · simp [mkSnapshot, mkFileSummary, List.find?]
    · simp only [mkFileSummary]
      norm_num
  · intro hin
    obtain ⟨bf, hbf, cf, hfind, habs, hfp⟩ := (mem_unchanged_files _ _ _).mp hin
    simp only [mkSnapshot, List.mem_singleton] at hbf
    subst hbf
    simp only [mkSnapshot, mkFileSummary, List.find?] at hfind
    simp only [beq_self_eq_true, Option.some.injEq] at hfind
    subst hfind
    rw [abs_lt] at habs
    simp only [mkFileSummary] at habs
    have h1 := habs.1
    norm_num at h1
  · refine (mem_filesWithImprovements _ _ _).mpr
      ⟨mkFileSummary "c.ts" 50, by simp [mkSnapshot],
       mkFileSummary "c.ts" (50 + 1 / 100), ?_, ?_, rfl⟩
    · simp [mkSnapshot, mkFileSummary, List.find?]
    · simp only [mkFileSummary]
      norm_num
  · intro hin
    obtain ⟨bf, hbf, cf, hfind, habs, hfp⟩ := (mem_unchanged_files _ _ _).mp hin
    simp only [mkSnapshot, List.mem_singleton] at hbf
    subst hbf
    simp only [mkSnapshot, mkFileSummary, List.find?] at hfind
    simp only [beq_self_eq_true, Option.some.injEq] at hfind
    subst hfind
    rw [abs_lt] at habs
    simp only [mkFileSummary] at habs
    have h2 := habs.2
    norm_num at h2

/-- C3 witness: a file present in both snapshots whose score dropped from 60
to 59.995 lands in the regression bucket (score strictly lower) and in the
unchanged bucket (difference below the 0.01 tolerance). -/
theorem snapshot_per_file_classification_witness :
    "w.ts" ∈ (calculateRegression
        (mkSnapshot [mkFileSummary "w.ts" 60])
        (mkSnapshot [mkFileSummary "w.ts" (60 - 5 / 1000)])).filesWithRegressions ∧
    "w.ts" ∈ (calculateUnchanged
        (mkSnapshot [mkFileSummary "w.ts" 60])
        (mkSnapshot [mkFileSummary "w.ts" (60 - 5 / 1000)])).files :=
  ⟨(snapshot_per_file_classification.1
      (mkSnapshot [mkFileSummary "w.ts" 60])
      (mkSnapshot [mkFileSummary "w.ts" (60 - 5 / 1000)])
      (mkFileSummary "w.ts" 60) (mkFileSummary "w.ts" (60 - 5 / 1000))
      (by simp [mkSnapshot])
      (by simp [mkSnapshot, mkFileSummary, List.find?])).1
      (by simp only [mkFileSummary]; norm_num),
   (snapshot_per_file_classification.1
      (mkSnapshot [mkFileSummary "w.ts" 60])
      (mkSnapshot [mkFileSummary "w.ts" (60 - 5 / 1000)])
      (mkFileSummary "w.ts" 60) (mkFileSummary "w.ts" (60 - 5 / 1000))
      (by simp [mkSnapshot])
      (by simp [mkSnapshot, mkFileSummary, List.find?])).2.2
      (by simp only [mkFileSummary]; rw [abs_lt]; constructor <;> norm_num)⟩

/-- C8: a file path missing from one of the two snapshots (a new or a deleted
file) is classified into none of the three buckets. -/
theorem snapshot_new_or_deleted_unclassified :
    ∀ (baseline current : PerformanceSnapshot) (p : String),
      ((∀ f ∈ baseline.fileAnalysis, f.filePath ≠ p) ∨
       (∀ f ∈ current.fileAnalysis, f.filePath ≠ p)) →
      p ∉ (calculateRegression baseline current).filesWithRegressions ∧
      p ∉ (calculateImprovement baseline current).filesWithImprovements ∧
      p ∉ (calculateUnchanged baseline current).files := by
  intro baseline current p h
  refine ⟨fun hin => ?_, fun hin => ?_, fun hin => ?_⟩
  · obtain ⟨bf, hbf, cf, hfind, _, hfp⟩ :=
      (mem_filesWithRegressions _ _ _).mp hin
    rcases h with h | h
    · exact h bf hbf hfp
    · have hcf := List.mem_of_find?_eq_some hfind
      have hbeq : cf.filePath = bf.filePath := by
        simpa using List.find?_some hfind
      exact h cf hcf (hbeq.trans hfp)
  · obtain ⟨bf, hbf, cf, hfind, _, hfp⟩ :=
      (mem_filesWithImprovements _ _ _).mp hin
    rcases h with h | h
    · exact h bf hbf hfp
    · have hcf := List.mem_of_find?_eq_some hfind
      have hbeq : cf.filePath = bf.filePath := by
        simpa using List.find?_some hfind
      exact h cf hcf (hbeq.trans hfp)
  · obtain ⟨bf, hbf, cf, hfind, _, hfp⟩ :=
      (mem_unchanged_files _ _ _).mp hin
    rcases h with h | h
    · exact h bf hbf hfp
    · have hcf := List.mem_of_find?_eq_some hfind
      have hbeq : cf.filePath = bf.filePath := by
        simpa using List.find?_some hfind
      exact h cf hcf (hbeq.trans hfp)

/-- C8 witness: a file present only in the current snapshot (a new file) is in
no bucket. -/
theorem snapshot_new_or_deleted_unclassified_witness :
    "n.ts" ∉ (calculateRegression (mkSnapshot [])
        (mkSnapshot [mkFileSummary "n.ts" 80])).filesWithRegressions ∧
    "n.ts" ∉ (calculateImprovement (mkSnapshot [])
        (mkSnapshot [mkFileSummary "n.ts" 80])).filesWithImprovements ∧
    "n.ts" ∉ (calculateUnchanged (mkSnapshot [])
        (mkSnapshot [mkFileSummary "n.ts" 80])).files :=
  snapshot_new_or_deleted_unclassified (mkSnapshot [])
    (mkSnapshot [mkFileSummary "n.ts" 80]) "n.ts"
    (Or.inl (by simp [mkSnapshot]))

/-- C10: the buckets are not mutually exclusive — a file present in both
snapshots whose score dropped by less than the 0.01 tolerance (but strictly)
is simultaneously in `filesWithRegressions` (strict comparison, no tolerance)
and in `unchanged.files` (tolerance 0.01). -/
theorem snapshot_buckets_overlap :
    ∀ (baseline current : PerformanceSnapshot)
      (baselineFile currentFile : FileAnalysisSummary),
      baselineFile ∈ baseline.fileAnalysis →
      current.fileAnalysis.find?
          (fun f => f.filePath == baselineFile.filePath) = some currentFile →
      0 < baselineFile.score - currentFile.score →
      baselineFile.score - currentFile.score < 1 / 100 →
      baselineFile.filePath ∈
        (calculateRegression baseline current).filesWithRegressions ∧
      baselineFile.filePath ∈ (calculateUnchanged baseline current).files := by
  intro baseline current bf cf hmem hfind h1 h2
  have hlt : cf.score < bf.score := sub_pos.mp h1
  have habs : |cf.score - bf.score| < 1 / 100 := by
    rw [abs_sub_comm, abs_of_pos h1]
    exact h2
  exact ⟨(mem_filesWithRegressions _ _ _).mpr ⟨bf, hmem, cf, hfind, hlt, rfl⟩,
         (mem_unchanged_files _ _ _).mpr ⟨bf, hmem, cf, hfind, habs, rfl⟩⟩

/-- C10 witness: a score drop of exactly 0.005 puts the file in both the
regression bucket and the unchanged bucket. -/
theorem snapshot_buckets_overlap_witness :
    "d.ts" ∈ (calculateRegression
        (mkSnapshot [mkFileSummary "d.ts" (50 + 5 / 1000)])
        (mkSnapshot [mkFileSummary "d.ts" 50])).filesWithRegressions ∧
    "d.ts" ∈ (calculateUnchanged
        (mkSnapshot [mkFileSummary "d.ts" (50 + 5 / 1000)])
        (mkSnapshot [mkFileSummary "d.ts" 50])).files :=
  snapshot_buckets_overlap
    (mkSnapshot [mkFileSummary "d.ts" (50 + 5 / 1000)])
    (mkSnapshot [mkFileSummary "d.ts" 50])
    (mkFileSummary "d.ts" (50 + 5 / 1000)) (mkFileSummary "d.ts" 50)
    (by simp [mkSnapshot])
    (by simp [mkSnapshot, mkFileSummary, List.find?])
    (by simp only [mkFileSummary]; norm_num)
    (by simp only [mkFileSummary]; norm_num)
